import Mathlib

/-!
# Verification of the `beget` CLI command execution pipeline

A shallow embedding, in Lean 4, of the core of `src/bin/beget.js`:

* the profile store loader (`readConfig`),
* the credential resolver (`resolveCredentials`),
* the risk confirmation gate (`ensureRiskConfirmation`),
* secret acquisition (`getSecret` / `promptMasked`),
* the remote call invoker (`callBeget`), and
* the command execution pipeline (`executeApi`),

together with the store transformations of `auth add` and `auth remove`.

JavaScript `undefined`/`null` string values are modelled as `Option String`
(`none`); JS `a ?? b` becomes `jsOr`; JS truthiness of a possibly-absent
string (`!x`, `if (x)`) becomes `truthy`.  Filesystem reads, the HTTP
exchange and interactive input are external effects: they enter the
embedding as explicit inputs (`ReadResult`, `FetchResult`, the raw answer
typed at a prompt), and the observable effects of a pipeline run (config
read, credential resolution, prompts, the network call) are returned as an
explicit trace of `Effect`s, in the order the code performs them.
-/

namespace BegetCli

/-- Exit codes of the CLI (the `EXIT` table in `bin/beget.js`). -/
def EXIT.OK : Nat := 0

def EXIT.GENERIC_ERROR : Nat := 1

def EXIT.USAGE_ERROR : Nat := 2

def EXIT.AUTH_ERROR : Nat := 3

def EXIT.API_ERROR : Nat := 4

def EXIT.CONFIG_ERROR : Nat := 5

def EXIT.NETWORK_ERROR : Nat := 6

/-- Error value CliError: message, exit code, and optional details (the provider's
error code is passed as `details` by `callBeget`). -/
structure CliError where
  message : String
  code : Nat
  details : Option String
deriving DecidableEq, Repr

/-- JS nullish coalescing a ?? b on possibly-absent values: `b` only when `a` is
`null`/`undefined` (`none`); an empty string on the left is kept. -/
def jsOr {α : Type} : Option α → Option α → Option α
  | some x, _ => some x
  | none, b => b

/-- JS truthiness of a possibly-absent string: `undefined`, `null` and the
empty string are falsy, every other string is truthy. -/
def truthy : Option String → Bool
  | some s => s ≠ ""
  | none => false

/-- A stored profile (`cfg.profiles[name]`): both fields may be absent in a
hand-edited config document, so they are `Option`s. `auth add` always
writes both. -/
structure Profile where
  login : Option String
  apiKey : Option String
deriving DecidableEq, Repr

/-- The in-memory profile store (`cfg`), with `profiles` as the
insertion-ordered key/value list of the JSON object. -/
structure Config where
  version : Option Int
  activeProfile : Option String
  profiles : List (String × Profile)
deriving DecidableEq, Repr

/-- First binding of `name` in the profiles object (`cfg.profiles[name]`). -/
def lookupProfile : List (String × Profile) → String → Option Profile
  | [], _ => none
  | (k, p) :: rest, n => if k = n then some p else lookupProfile rest n

/-- Assignment cfg.profiles[name] = p: replace the existing binding in place, or
append a new one (JS object insertion order). -/
def setProfile : List (String × Profile) → String → Profile → List (String × Profile)
  | [], n, p => [(n, p)]
  | (k, q) :: rest, n, p =>
      if k = n then (n, p) :: rest else (k, q) :: setProfile rest n p

/-- Deletion of a key: delete cfg.profiles[name]. -/
def removeProfile (ps : List (String × Profile)) (n : String) : List (String × Profile) :=
  ps.filter (fun e => e.1 ≠ n)

/-- Key list, Object.keys(cfg.profiles). -/
def profileKeys (ps : List (String × Profile)) : List String :=
  ps.map Prod.fst

/-- Outcome of `fs.readFile` + `JSON.parse` on the config path, received
by `readConfig` from the outside world.  `nonObject` is a parse that
succeeds but yields a JSON value on which the strict-mode property
assignments `parsed.profiles ??= {}` / `parsed.activeProfile ??= null`
throw (a primitive or `null`). -/
inductive ReadResult where
  | enoent
  | ioError (msg : String)
  | notJson (msg : String)
  | nonObject (msg : String)
  | object (version : Option Int) (activeProfile : Option String)
      (profiles : Option (List (String × Profile)))
deriving DecidableEq, Repr

/-- Function readConfig (`bin/beget.js` lines 592-603): a missing file yields the
default empty store; any other read/parse failure yields a `ConfigError`
(exit 5); a parsed object gets `profiles` defaulted to `{}` and
`activeProfile` defaulted to `null`. -/
def readConfig : ReadResult → Except CliError Config
  | .enoent => .ok ⟨some 1, none, []⟩
  | .ioError m => .error ⟨"Failed to read config: " ++ m, EXIT.CONFIG_ERROR, none⟩
  | .notJson m => .error ⟨"Failed to read config: " ++ m, EXIT.CONFIG_ERROR, none⟩
  | .nonObject m => .error ⟨"Failed to read config: " ++ m, EXIT.CONFIG_ERROR, none⟩
  | .object v a ps => .ok ⟨v, a, ps.getD []⟩

/-- The global command-line options consumed by the pipeline
(`globalOpts`). `timeout` is already converted to a number, as in
`Number(globalOpts.timeout)`. -/
structure GlobalOpts where
  profile : Option String
  login : Option String
  baseUrl : Option String
  timeout : Nat
  yes : Bool
deriving DecidableEq, Repr

/-- The per-command options consumed by the pipeline (`cmdOpts`). -/
structure CmdOpts where
  dryRun : Bool
  yes : Bool
  noInput : Bool
deriving DecidableEq, Repr

/-- The environment variables read by `resolveCredentials`. -/
structure Env where
  BEGET_PROFILE : Option String
  BEGET_LOGIN : Option String
  BEGET_API_PASSWORD : Option String
  BEGET_API_KEY : Option String
  BEGET_API_BASE_URL : Option String
deriving DecidableEq, Repr

/-- Whether `process.stdin` / `process.stdout` are attached to a terminal. -/
structure Tty where
  stdinTTY : Bool
  stdoutTTY : Bool
deriving DecidableEq, Repr

/-- The effective credentials returned by a successful resolution. -/
structure Creds where
  login : String
  apiKey : String
  baseUrl : String
  selectedProfile : Option String
deriving DecidableEq, Repr

/-- Selection `globalOpts.profile ?? process.env.BEGET_PROFILE ?? cfg.activeProfile`. -/
def selectedProfileOf (g : GlobalOpts) (env : Env) (cfg : Config) : Option String :=
  jsOr (jsOr g.profile env.BEGET_PROFILE) cfg.activeProfile

/-- Lookup `selectedProfile ? cfg.profiles[selectedProfile] : null` (a falsy —
empty — selected name skips the lookup). -/
def profileOf (g : GlobalOpts) (env : Env) (cfg : Config) : Option Profile :=
  match selectedProfileOf g env cfg with
  | some s => if s = "" then none else lookupProfile cfg.profiles s
  | none => none

/-- Login tiers `globalOpts.login ?? process.env.BEGET_LOGIN ?? profile?.login`. -/
def loginOf (g : GlobalOpts) (env : Env) (cfg : Config) : Option String :=
  jsOr (jsOr g.login env.BEGET_LOGIN) ((profileOf g env cfg).bind Profile.login)

/-- Secret tiers `process.env.BEGET_API_PASSWORD ?? process.env.BEGET_API_KEY ??
profile?.apiKey` (no command-line flag carries the secret). -/
def apiKeyOf (g : GlobalOpts) (env : Env) (cfg : Config) : Option String :=
  jsOr (jsOr env.BEGET_API_PASSWORD env.BEGET_API_KEY)
    ((profileOf g env cfg).bind Profile.apiKey)

/-- Endpoint tiers `globalOpts.baseUrl ?? process.env.BEGET_API_BASE_URL ??
'https://api.beget.com/api'`. -/
def baseUrlOf (g : GlobalOpts) (env : Env) : String :=
  (jsOr g.baseUrl env.BEGET_API_BASE_URL).getD "https://api.beget.com/api"

/-- The `AuthError` thrown by `resolveCredentials`. -/
def missingCredsError : CliError :=
  ⟨"Missing Beget credentials. Use `beget auth add/use` or set BEGET_LOGIN + BEGET_API_PASSWORD.",
    EXIT.AUTH_ERROR, none⟩

/-- Function resolveCredentials (`bin/beget.js` lines 630-641): three-tier
precedence per field, then `if (!login || !apiKey) throw` — a resolved but
empty string fails exactly like an absent one, by JS truthiness. -/
def resolveCredentials (g : GlobalOpts) (env : Env) (cfg : Config) : Except CliError Creds :=
  if truthy (loginOf g env cfg) && truthy (apiKeyOf g env cfg) then
    .ok ⟨(loginOf g env cfg).getD "", (apiKeyOf g env cfg).getD "",
      baseUrlOf g env, selectedProfileOf g env cfg⟩
  else
    .error missingCredsError

/-- Function ensureRiskConfirmation (`bin/beget.js` lines 692-699).  `rawAnswer`
is the line the user would type at the prompt; `promptLine` trims it and
the gate lowercases it.  The second component records the prompt text
actually issued (`none` when no prompt happened). -/
def ensureRiskConfirmation (cmdYes globalYes : Bool) (tty : Tty) (title : String)
    (rawAnswer : String) : Except CliError Unit × Option String :=
  if cmdYes || globalYes then
    (.ok (), none)
  else if !tty.stdinTTY || !tty.stdoutTTY then
    (.error ⟨title ++ " is risky; run with --yes in non-interactive mode",
      EXIT.USAGE_ERROR, none⟩, none)
  else
    let ans := rawAnswer.trim.toLower
    if ans = "y" ∨ ans = "yes" then
      (.ok (), some (title ++ ". Continue? [y/N]: "))
    else
      (.error ⟨"Cancelled by user", EXIT.USAGE_ERROR, none⟩,
        some (title ++ ". Continue? [y/N]: "))

/-- The loop `for (const key of envKeys) if (process.env[key]) return
process.env[key]`: first environment candidate with a truthy (non-empty)
value. -/
def envFirstTruthy (env : String → Option String) : List String → Option String
  | [] => none
  | k :: ks =>
      if truthy (env k) then env k else envFirstTruthy env ks

/-- Function promptMasked (`bin/beget.js` lines 653-677), abstracted over the
masked character loop: fails before writing the prompt when `stdin` is not
a terminal, otherwise returns the trimmed entered value.  The second
component records whether the prompt was written. -/
def promptMasked (tty : Tty) (typed : String) : Except CliError String × Bool :=
  if !tty.stdinTTY then
    (.error ⟨"Cannot prompt for secret in non-interactive mode.", EXIT.USAGE_ERROR, none⟩,
      false)
  else
    (.ok typed.trim, true)

/-- Function getSecret (`bin/beget.js` lines 701-707): first truthy environment
candidate, else a `UsageError` naming the candidates under `--no-input`,
else `promptMasked`. -/
def getSecret (env : String → Option String) (envKeys : List String) (noInput : Bool)
    (tty : Tty) (typed : String) : Except CliError String × Bool :=
  match envFirstTruthy env envKeys with
  | some v => (.ok v, false)
  | none =>
      if noInput then
        (.error ⟨"Missing secret in env (" ++ String.intercalate ", " envKeys ++
          ") for --no-input mode", EXIT.USAGE_ERROR, none⟩, false)
      else
        promptMasked tty typed

/-- One error object of the inner envelope (`answer.errors[i]`). -/
structure InnerError where
  error_text : Option String
  error_code : Option String
deriving DecidableEq, Repr

/-- The inner envelope (`payload.answer`); `result` is an opaque JSON
value of type `α`, absent when the field is missing. -/
structure Answer (α : Type) where
  status : Option String
  result : Option α
  errors : Option (List InnerError)
deriving DecidableEq, Repr

/-- The outer envelope, as parsed from the response body. -/
structure Payload (α : Type) where
  status : Option String
  error_text : Option String
  error_code : Option String
  answer : Option (Answer α)
deriving DecidableEq, Repr

/-- Body of a transport-successful response: JSON (two-level envelope) or
not parseable as JSON. -/
inductive Body (α : Type) where
  | notJson
  | json (payload : Payload α)
deriving DecidableEq, Repr

/-- Outcome of the `fetch` call as seen by `callBeget`: the timeout fired
(`AbortError`), some other transport fault, or a response with an HTTP
status, status text and body.  `response.ok` is `200 ≤ status < 300`. -/
inductive FetchResult (α : Type) where
  | aborted
  | transportError (msg : String)
  | response (status : Nat) (statusText : String) (body : Body α)
deriving DecidableEq, Repr

/-- Predicate for response.ok of the WHATWG fetch API. -/
def httpOk (status : Nat) : Bool :=
  200 ≤ status && status < 300

/-- The two-level envelope interpretation of `callBeget` applied to a
parsed JSON payload (`bin/beget.js` lines 740-749). -/
def interpretEnvelope {α : Type} (payload : Payload α) : Except CliError (Option α) :=
  if payload.status ≠ some "success" then
    .error ⟨"Beget API error: " ++ payload.error_text.getD "unknown error",
      if payload.error_code = some "AUTH_ERROR" then EXIT.AUTH_ERROR else EXIT.API_ERROR,
      payload.error_code⟩
  else
    match payload.answer with
    | none =>
        .error ⟨"Method failed: unknown method error", EXIT.API_ERROR, none⟩
    | some answer =>
        if answer.status ≠ some "success" then
          let firstErr := answer.errors.bind List.head?
          .error ⟨"Method failed: " ++
            ((firstErr.bind InnerError.error_text).getD "unknown method error"),
            EXIT.API_ERROR, firstErr.bind InnerError.error_code⟩
        else
          .ok answer.result

/-- Function callBeget (`bin/beget.js` lines 709-750).  Request construction and
the HTTP exchange are abstracted into `fetched`; the function classifies
the outcome exactly as the source: timeout and transport faults and
non-2xx statuses are network errors (exit 6), an unparseable body is an
API error (exit 4), and a parsed body goes through the two-level envelope
check. -/
def callBeget {α : Type} (timeoutMs : Nat) (fetched : FetchResult α) :
    Except CliError (Option α) :=
  match fetched with
  | .aborted =>
      .error ⟨"Network timeout after " ++ toString timeoutMs ++ "ms",
        EXIT.NETWORK_ERROR, none⟩
  | .transportError m =>
      .error ⟨"Network error: " ++ m, EXIT.NETWORK_ERROR, none⟩
  | .response status statusText body =>
      if !httpOk status then
        .error ⟨"HTTP " ++ toString status ++ " " ++ statusText, EXIT.NETWORK_ERROR, none⟩
      else
        match body with
        | .notJson => .error ⟨"API returned non-JSON response", EXIT.API_ERROR, none⟩
        | .json payload => interpretEnvelope payload

/-- Observable effects of one pipeline run, in program order. -/
inductive Effect where
  | readCfg
  | resolveCreds
  | prompt (text : String)
  | networkCall
deriving DecidableEq, Repr

/-- Successful pipeline outcome: the structured dry-run description
(`{ dryRun: true, section, method, inputData, query }`) or the remote
call's result. -/
inductive ExecResult (α β γ : Type) where
  | dryRunDesc (sect method : String) (inputData : Option β) (query : Option γ)
  | apiResult (result : Option α)
deriving DecidableEq, Repr

/-- Effects contributed by the risk gate. -/
def promptEffects : Option String → List Effect
  | none => []
  | some t => [.prompt t]

/-- Function executeApi (`bin/beget.js` lines 752-762): read the store, resolve
credentials, short-circuit a mutating dry run, run the risk gate for a
risky mutation, then perform the remote call.  `file` is the outcome of
reading the config path, `rawAnswer` the line a prompt would read,
`fetched` the outcome the network would produce. -/
def executeApi {α β γ : Type} (g : GlobalOpts) (cmdOpts : CmdOpts) (env : Env) (tty : Tty)
    (file : ReadResult) (rawAnswer : String) (fetched : FetchResult α)
    (sect method : String) (inputData : Option β) (query : Option γ)
    (mutate risky : Bool) (riskTitle : Option String) :
    Except CliError (ExecResult α β γ) × List Effect :=
  match readConfig file with
  | .error e => (.error e, [.readCfg])
  | .ok cfg =>
      match resolveCredentials g env cfg with
      | .error e => (.error e, [.readCfg, .resolveCreds])
      | .ok _creds =>
          if mutate && cmdOpts.dryRun then
            (.ok (.dryRunDesc sect method inputData query), [.readCfg, .resolveCreds])
          else if mutate && risky then
            match ensureRiskConfirmation cmdOpts.yes g.yes tty
                (riskTitle.getD (sect ++ "/" ++ method)) rawAnswer with
            | (.error e, p) => (.error e, [.readCfg, .resolveCreds] ++ promptEffects p)
            | (.ok _, p) =>
                ((callBeget g.timeout fetched).map .apiResult,
                  [.readCfg, .resolveCreds] ++ promptEffects p ++ [.networkCall])
          else
            ((callBeget g.timeout fetched).map .apiResult,
              [.readCfg, .resolveCreds, .networkCall])

/-- The store transformation of the `auth add` action (`bin/beget.js`
lines 786-788): write the profile, then set it active only when
`activeProfile` is falsy (`if (!next.activeProfile) next.activeProfile =
name`). -/
def authAddStore (cfg : Config) (name login apiKey : String) : Config :=
  let next : Config := { cfg with profiles := setProfile cfg.profiles name ⟨some login, some apiKey⟩ }
  if truthy next.activeProfile then next else { next with activeProfile := some name }

/-- Ordered side effects of a store-mutating `auth` action. -/
inductive IoEvent where
  | write (cfg : Config)
  | print
deriving DecidableEq, Repr

/-- The non-dry-run `auth remove` action (`bin/beget.js` lines 809-820):
fail with a `ConfigError` when the profile is absent, else reassign
`activeProfile` (first other key, or `null`) when the removed profile was
active, delete the profile, persist, and only then report success. -/
def authRemoveAction (cfg : Config) (name : String) :
    Except CliError (Config × List IoEvent) :=
  if (lookupProfile cfg.profiles name).isNone then
    .error ⟨"Profile '" ++ name ++ "' not found", EXIT.CONFIG_ERROR, none⟩
  else
    let nextActive :=
      if cfg.activeProfile = some name then
        (profileKeys cfg.profiles).find? (fun k => k ≠ name)
      else cfg.activeProfile
    let cfg' : Config :=
      { cfg with profiles := removeProfile cfg.profiles name, activeProfile := nextActive }
    .ok (cfg', [.write cfg', .print])

/-- The store invariant of the spec: a non-null `activeProfile` names an
existing profile. -/
def storeInv (cfg : Config) : Prop :=
  ∀ a, cfg.activeProfile = some a → a ∈ profileKeys cfg.profiles

/-- Global options with no flag given (`beget <ns> <cmd>` with defaults). -/
def noFlags : GlobalOpts := ⟨none, none, none, 20000, false⟩

/-- An environment with none of the `BEGET_*` variables set. -/
def emptyEnv : Env := ⟨none, none, none, none, none⟩

/- ### Helper lemmas on the store primitives -/

theorem lookupProfile_setProfile_self (ps : List (String × Profile)) (n : String)
    (p : Profile) : lookupProfile (setProfile ps n p) n = some p := by
  induction ps with
  | nil => simp [setProfile, lookupProfile]
  | cons hd tl ih =>
      obtain ⟨a, q⟩ := hd
      by_cases h : a = n
      · simp [setProfile, h, lookupProfile]
      · simp [setProfile, h, lookupProfile, ih]

theorem lookupProfile_setProfile_other (ps : List (String × Profile)) (n k : String)
    (p : Profile) (hk : k ≠ n) :
    lookupProfile (setProfile ps n p) k = lookupProfile ps k := by
  induction ps with
  | nil => simp [setProfile, lookupProfile, Ne.symm hk]
  | cons hd tl ih =>
      obtain ⟨a, q⟩ := hd
      by_cases h : a = n
      · subst h
        simp [setProfile, lookupProfile, Ne.symm hk]
      · simp [setProfile, h, lookupProfile, ih]

theorem mem_profileKeys_removeProfile {ps : List (String × Profile)} {n k : String} :
    k ∈ profileKeys (removeProfile ps n) ↔ k ∈ profileKeys ps ∧ k ≠ n := by
  simp only [removeProfile, profileKeys, List.mem_map, List.mem_filter]
  constructor
  · rintro ⟨e, ⟨he, hf⟩, rfl⟩
    exact ⟨⟨e, he, rfl⟩, by simpa using hf⟩
  · rintro ⟨⟨e, he, rfl⟩, hne⟩
    exact ⟨e, ⟨he, by simpa using hne⟩, rfl⟩

theorem lookupProfile_isSome_of_mem {ps : List (String × Profile)} {k : String}
    (h : k ∈ profileKeys ps) : (lookupProfile ps k).isSome := by
  induction ps with
  | nil => simp [profileKeys] at h
  | cons hd tl ih =>
      by_cases hh : hd.1 = k
      · simp [lookupProfile, hh]
      · simp [profileKeys] at h
        rcases h with h | h
        · exact absurd h.symm hh
        · simp [lookupProfile, hh, ih (by simp [profileKeys, h])]

/- ### Helper lemmas on secret acquisition -/

theorem envFirstTruthy_eq_none {env : String → Option String} {keys : List String}
    (h : ∀ k ∈ keys, truthy (env k) = false) : envFirstTruthy env keys = none := by
  induction keys with
  | nil => rfl
  | cons hd tl ih =>
      simp [envFirstTruthy, h hd (by simp)]
      exact ih fun k hk => h k (by simp [hk])

theorem envFirstTruthy_first {env : String → Option String} {pre : List String}
    (k : String) (post : List String) (hpre : ∀ k' ∈ pre, truthy (env k') = false)
    (hk : truthy (env k) = true) :
    envFirstTruthy env (pre ++ k :: post) = env k := by
  induction pre with
  | nil => simp [envFirstTruthy, hk]
  | cons hd tl ih =>
      simp [envFirstTruthy, hpre hd (by simp)]
      exact ih fun k' hk' => hpre k' (by simp [hk'])

/- ### C9 — profile store loading -/

/-- C9. Loading the profile store from a path whose backing file is
absent never fails and returns the default empty store (version `1`,
`activeProfile` null, empty profiles map); loading a file whose content is
malformed (not parseable JSON) or unreadable fails with a `ConfigError`
(exit code 5). -/
theorem readConfig_spec :
    readConfig .enoent = .ok ⟨some 1, none, []⟩
    ∧ (∀ m, readConfig (.ioError m) =
        .error ⟨"Failed to read config: " ++ m, 5, none⟩)
    ∧ (∀ m, readConfig (.notJson m) =
        .error ⟨"Failed to read config: " ++ m, 5, none⟩) :=
  ⟨rfl, fun _ => rfl, fun _ => rfl⟩

/- ### C5 — transport-level failure classification -/

/-- C5. A timeout expiry, any lower-level transport fault, and any
non-2xx HTTP status each yield a network failure mapped to exit code 6
(the timeout message reporting the budget in milliseconds, the non-2xx
case reporting `HTTP {status} {reason}`), while a transport-successful
response whose body is not JSON yields the protocol failure
`API returned non-JSON response` mapped to exit code 4. -/
theorem callBeget_transport_spec (α : Type) (tm : Nat) (m : String) (status : Nat)
    (st : String) (body : Body α) :
    callBeget tm (FetchResult.aborted (α := α)) =
      .error ⟨"Network timeout after " ++ toString tm ++ "ms", 6, none⟩
    ∧ callBeget tm (FetchResult.transportError (α := α) m) =
      .error ⟨"Network error: " ++ m, 6, none⟩
    ∧ (httpOk status = false →
        callBeget tm (.response status st body) =
          .error ⟨"HTTP " ++ toString status ++ " " ++ st, 6, none⟩)
    ∧ (httpOk status = true →
        callBeget tm (.response status st (Body.notJson (α := α))) =
          .error ⟨"API returned non-JSON response", 4, none⟩) := by
  refine ⟨rfl, rfl, fun h => by simp [callBeget, h, EXIT.NETWORK_ERROR],
    fun h => by simp [callBeget, h, EXIT.API_ERROR]⟩

/-- Witness for `callBeget_transport_spec`: a 404 response and a 200
response with a non-JSON body, classified concretely. -/
theorem callBeget_transport_spec_witness :
    callBeget (α := Nat) 20000 (FetchResult.response 404 "Not Found"
        (Body.json ⟨none, none, none, none⟩)) =
      .error ⟨"HTTP " ++ toString (404 : Nat) ++ " " ++ "Not Found", 6, none⟩
    ∧ callBeget (α := Nat) 20000 (FetchResult.response 200 "OK" Body.notJson) =
      .error ⟨"API returned non-JSON response", 4, none⟩ :=
  ⟨(callBeget_transport_spec Nat 20000 "" 404 "Not Found"
      (Body.json ⟨none, none, none, none⟩)).2.2.1 (by decide),
   (callBeget_transport_spec Nat 20000 "" 200 "OK" Body.notJson).2.2.2 (by decide)⟩

/- ### C3 — two-level success envelope -/

/-- C3. For every remote call whose response parses as JSON (which
presupposes a 2xx status, since the body is only read then), the invoker
yields success with result `answer.result` if and only if the outer
envelope's status is `"success"` and the inner envelope `answer` exists
with status `"success"`; a successful HTTP transaction alone never yields
success. -/
theorem callBeget_two_level_success (α : Type) (tm status : Nat) (st : String)
    (payload : Payload α) (hok : httpOk status = true) :
    ((∃ r, callBeget tm (.response status st (.json payload)) = .ok r) ↔
      (payload.status = some "success" ∧
        ∃ ans, payload.answer = some ans ∧ ans.status = some "success"))
    ∧ (∀ ans, payload.status = some "success" → payload.answer = some ans →
        ans.status = some "success" →
        callBeget tm (.response status st (.json payload)) = .ok ans.result) := by
  have hred : callBeget tm (.response status st (.json payload)) = interpretEnvelope payload := by
    simp [callBeget, hok]
  constructor
  · rw [hred]
    unfold interpretEnvelope
    by_cases h1 : payload.status = some "success"
    · cases hans : payload.answer with
      | none => simp [h1, hans]
      | some ans =>
          by_cases h2 : ans.status = some "success"
          · simp [h1, hans, h2]
          · simp [h1, hans, h2]
    · simp [h1]
  · intro ans h1 hans h2
    rw [hred]
    unfold interpretEnvelope
    simp [h1, hans, h2]

/-- Witness for `callBeget_two_level_success`: a concrete doubly-successful
envelope yields its `answer.result`. -/
theorem callBeget_two_level_success_witness :
    callBeget (α := Nat) 20000 (FetchResult.response 200 "OK"
      (Body.json ⟨some "success", none, none, some ⟨some "success", some 7, none⟩⟩)) =
      .ok (some 7) :=
  (callBeget_two_level_success Nat 20000 200 "OK"
      ⟨some "success", none, none, some ⟨some "success", some 7, none⟩⟩ (by decide)).2
    ⟨some "success", some 7, none⟩ rfl rfl rfl

/- ### C4 — failure classification of the two envelopes (corrected) -/

/-- C4, counterexample. The claim says an inner failure carries the
`error_text` of the first element of `answer.errors` as its message; the
code prefixes the fixed text `Method failed: `, so with
`error_text = "x"` the message is `"Method failed: x"`, not `"x"`. -/
theorem callBeget_inner_message_cex :
    callBeget (α := Nat) 20000 (FetchResult.response 200 "OK"
      (Body.json ⟨some "success", none, none,
        some ⟨some "error", none, some [⟨some "x", some "Y"⟩]⟩⟩)) =
      .error ⟨"Method failed: x", 4, some "Y"⟩
    ∧ ("Method failed: x" : String) ≠ "x" :=
  ⟨rfl, by decide⟩

/-- C4, amended. For every JSON response whose outer envelope does not
report success, the invoker fails with exit code 3 exactly when
`error_code = "AUTH_ERROR"` and exit code 4 otherwise, with
`error_code` as provider code and a message embedding `error_text` after
the fixed text `Beget API error: `; when the outer envelope succeeds but
`answer.status ≠ "success"`, it fails with exit code 4, the provider code
of the first element of `answer.errors`, and a message embedding that
element's `error_text` after the fixed text `Method failed: `. -/
theorem callBeget_failure_classification (α : Type) (tm status : Nat) (st : String)
    (payload : Payload α) (hok : httpOk status = true) :
    (payload.status ≠ some "success" →
      callBeget tm (.response status st (.json payload)) =
        .error ⟨"Beget API error: " ++ payload.error_text.getD "unknown error",
          if payload.error_code = some "AUTH_ERROR" then 3 else 4,
          payload.error_code⟩)
    ∧ (∀ ans, payload.status = some "success" → payload.answer = some ans →
        ans.status ≠ some "success" →
        callBeget tm (.response status st (.json payload)) =
          .error ⟨"Method failed: " ++
              (((ans.errors.bind List.head?).bind InnerError.error_text).getD
                "unknown method error"),
            4, (ans.errors.bind List.head?).bind InnerError.error_code⟩) := by
  have hred : callBeget tm (.response status st (.json payload)) = interpretEnvelope payload := by
    simp [callBeget, hok]
  constructor
  · intro h1
    rw [hred]
    unfold interpretEnvelope
    simp [h1, EXIT.AUTH_ERROR, EXIT.API_ERROR]
  · intro ans h1 hans h2
    rw [hred]
    unfold interpretEnvelope
    simp [h1, hans, h2, EXIT.API_ERROR]

/-- Witness for `callBeget_failure_classification`: a concrete outer
`AUTH_ERROR` failure is mapped to exit code 3 with the provider's code. -/
theorem callBeget_failure_classification_witness :
    callBeget (α := Nat) 20000 (FetchResult.response 200 "OK"
      (Body.json ⟨some "error", some "bad auth", some "AUTH_ERROR", none⟩)) =
      .error ⟨"Beget API error: bad auth", 3, some "AUTH_ERROR"⟩ := by
  have h := (callBeget_failure_classification Nat 20000 200 "OK"
      ⟨some "error", some "bad auth", some "AUTH_ERROR", none⟩ (by decide)).1 (by decide)
  simpa using h

/- ### C6 — credential resolution precedence (corrected) -/

/-- C6, counterexample. The claim says resolution fails iff login or
secret is still undefined after precedence; here the secret resolves to
the defined (stored) value `""`, yet resolution fails, because the code
tests JS truthiness (`!login || !apiKey`), not definedness. -/
theorem resolveCredentials_empty_secret_cex :
    loginOf noFlags emptyEnv ⟨some 1, some "main", [("main", ⟨some "u", some ""⟩)]⟩ = some "u"
    ∧ apiKeyOf noFlags emptyEnv ⟨some 1, some "main", [("main", ⟨some "u", some ""⟩)]⟩ = some ""
    ∧ resolveCredentials noFlags emptyEnv ⟨some 1, some "main", [("main", ⟨some "u", some ""⟩)]⟩ =
        .error missingCredsError
    ∧ missingCredsError.code = 3 :=
  ⟨rfl, rfl, rfl, rfl⟩

/-- C6, amended. Credential resolution applies three-tier precedence
independently per field — explicit flag over environment over the selected
profile's stored value — for login, secret and base endpoint (the secret
tier checking `BEGET_API_PASSWORD` before the legacy `BEGET_API_KEY`, the
endpoint defaulting to the fixed well-known endpoint, and profile
selection itself following explicit name, then environment name, then the
store's active profile); resolution fails, with the `AuthError` of exit
code 3, if and only if after precedence the login or the secret is
undefined **or empty**. -/
theorem resolveCredentials_spec (g : GlobalOpts) (env : Env) (cfg : Config) :
    (∀ p, g.profile = some p → selectedProfileOf g env cfg = some p)
    ∧ (g.profile = none → ∀ p, env.BEGET_PROFILE = some p →
        selectedProfileOf g env cfg = some p)
    ∧ (g.profile = none → env.BEGET_PROFILE = none →
        selectedProfileOf g env cfg = cfg.activeProfile)
    ∧ (∀ v, g.login = some v → loginOf g env cfg = some v)
    ∧ (g.login = none → ∀ v, env.BEGET_LOGIN = some v → loginOf g env cfg = some v)
    ∧ (g.login = none → env.BEGET_LOGIN = none →
        loginOf g env cfg = (profileOf g env cfg).bind Profile.login)
    ∧ (∀ v, env.BEGET_API_PASSWORD = some v → apiKeyOf g env cfg = some v)
    ∧ (env.BEGET_API_PASSWORD = none → ∀ v, env.BEGET_API_KEY = some v →
        apiKeyOf g env cfg = some v)
    ∧ (env.BEGET_API_PASSWORD = none → env.BEGET_API_KEY = none →
        apiKeyOf g env cfg = (profileOf g env cfg).bind Profile.apiKey)
    ∧ (∀ v, g.baseUrl = some v → baseUrlOf g env = v)
    ∧ (g.baseUrl = none → ∀ v, env.BEGET_API_BASE_URL = some v → baseUrlOf g env = v)
    ∧ (g.baseUrl = none → env.BEGET_API_BASE_URL = none →
        baseUrlOf g env = "https://api.beget.com/api")
    ∧ (resolveCredentials g env cfg = .error missingCredsError ↔
        (truthy (loginOf g env cfg) = false ∨ truthy (apiKeyOf g env cfg) = false))
    ∧ (truthy (loginOf g env cfg) = true → truthy (apiKeyOf g env cfg) = true →
        resolveCredentials g env cfg =
          .ok ⟨(loginOf g env cfg).getD "", (apiKeyOf g env cfg).getD "",
            baseUrlOf g env, selectedProfileOf g env cfg⟩) := by
  refine ⟨fun p hp => by simp [selectedProfileOf, jsOr, hp],
    fun h1 p hp => by simp [selectedProfileOf, jsOr, h1, hp],
    fun h1 h2 => by simp [selectedProfileOf, jsOr, h1, h2],
    fun v hv => by simp [loginOf, jsOr, hv],
    fun h1 v hv => by simp [loginOf, jsOr, h1, hv],
    fun h1 h2 => by simp [loginOf, jsOr, h1, h2],
    fun v hv => by simp [apiKeyOf, jsOr, hv],
    fun h1 v hv => by simp [apiKeyOf, jsOr, h1, hv],
    fun h1 h2 => by simp [apiKeyOf, jsOr, h1, h2],
    fun v hv => by simp [baseUrlOf, jsOr, hv],
    fun h1 v hv => by simp [baseUrlOf, jsOr, h1, hv],
    fun h1 h2 => by simp [baseUrlOf, jsOr, h1, h2],
    ?_, ?_⟩
  · unfold resolveCredentials
    cases h1 : truthy (loginOf g env cfg) <;> cases h2 : truthy (apiKeyOf g env cfg) <;>
      simp [h1, h2]
  · intro h1 h2
    unfold resolveCredentials
    simp [h1, h2]

/-- Witness for `resolveCredentials_spec`: flag login beats the
environment login, the environment secret is taken, the endpoint defaults. -/
theorem resolveCredentials_spec_witness :
    resolveCredentials ⟨none, some "flagU", none, 20000, false⟩
      ⟨none, some "envU", some "envK", none, none⟩ ⟨some 1, none, []⟩ =
      .ok ⟨"flagU", "envK", "https://api.beget.com/api", none⟩ := by
  obtain ⟨-, -, -, -, -, -, -, -, -, -, -, -, -, hsucc⟩ :=
    resolveCredentials_spec ⟨none, some "flagU", none, 20000, false⟩
      ⟨none, some "envU", some "envK", none, none⟩ ⟨some 1, none, []⟩
  have h := hsucc (by decide) (by decide)
  rw [h]
  rfl

/- ### C2 — the risk confirmation gate -/

/-- C2. For every risky operation: the gate succeeds immediately with
no prompt when a bypass flag (command-level or global `--yes`) is given;
otherwise, when stdin or stdout is not an interactive terminal, it fails
with a usage error (exit code 2) and — shown on the pipeline — no network
call is performed; otherwise it prompts `{label}. Continue? [y/N]: ` and
succeeds exactly when the trimmed answer case-insensitively equals `y` or
`yes`, failing with the usage error `Cancelled by user` on any other
input, the empty answer included. -/
theorem risk_gate_spec {α β γ : Type} (cy gy : Bool) (tty : Tty) (title raw : String)
    (g : GlobalOpts) (cmdOpts : CmdOpts) (env : Env) (file : ReadResult)
    (fetched : FetchResult α) (sect method : String) (inputData : Option β)
    (query : Option γ) (riskTitle : Option String) :
    ((cy || gy) = true →
      ensureRiskConfirmation cy gy tty title raw = (.ok (), none))
    ∧ ((cy || gy) = false → (tty.stdinTTY = false ∨ tty.stdoutTTY = false) →
        ensureRiskConfirmation cy gy tty title raw =
          (.error ⟨title ++ " is risky; run with --yes in non-interactive mode", 2, none⟩,
            none))
    ∧ ((cy || gy) = false → tty.stdinTTY = true → tty.stdoutTTY = true →
        (ensureRiskConfirmation cy gy tty title raw).2 =
            some (title ++ ". Continue? [y/N]: ")
        ∧ (raw.trim.toLower = "y" ∨ raw.trim.toLower = "yes" →
            (ensureRiskConfirmation cy gy tty title raw).1 = .ok ())
        ∧ (¬(raw.trim.toLower = "y" ∨ raw.trim.toLower = "yes") →
            (ensureRiskConfirmation cy gy tty title raw).1 =
              .error ⟨"Cancelled by user", 2, none⟩))
    ∧ (∀ cfg creds, readConfig file = .ok cfg → resolveCredentials g env cfg = .ok creds →
        cmdOpts.yes = false → g.yes = false → cmdOpts.dryRun = false →
        (tty.stdinTTY = false ∨ tty.stdoutTTY = false) →
        (executeApi g cmdOpts env tty file raw fetched sect method inputData query
            true true riskTitle).1 =
          .error ⟨(riskTitle.getD (sect ++ "/" ++ method)) ++
            " is risky; run with --yes in non-interactive mode", 2, none⟩
        ∧ Effect.networkCall ∉
          (executeApi g cmdOpts env tty file raw fetched sect method inputData query
            true true riskTitle).2) := by
  have hbp : ∀ h : tty.stdinTTY = false ∨ tty.stdoutTTY = false,
      (!tty.stdinTTY || !tty.stdoutTTY) = true := by
    rintro (h | h) <;> simp [h]
  refine ⟨fun h => by simp [ensureRiskConfirmation, h],
    fun h hio => by simp [ensureRiskConfirmation, h, hbp hio, EXIT.USAGE_ERROR],
    fun h hin hout => ?_, fun cfg creds hcfg hcreds hy hgy hdry hio => ?_⟩
  · refine ⟨by simp [ensureRiskConfirmation, h, hin, hout]; split <;> rfl,
      fun hans => ?_, fun hans => ?_⟩
    · rcases hans with hans | hans <;>
        simp [ensureRiskConfirmation, h, hin, hout, hans]
    · rw [not_or] at hans
      simp [ensureRiskConfirmation, h, hin, hout, hans.1, hans.2, EXIT.USAGE_ERROR]
  · have hc : (cmdOpts.yes || g.yes) = false := by simp [hy, hgy]
    constructor
    · simp [executeApi, hcfg, hcreds, hdry, ensureRiskConfirmation, hc, hbp hio,
        promptEffects, EXIT.USAGE_ERROR]
    · simp [executeApi, hcfg, hcreds, hdry, ensureRiskConfirmation, hc, hbp hio,
        promptEffects]

/-- Witness for `risk_gate_spec`: a risky deletion in a non-interactive
session without `--yes` fails with exit code 2 and its trace contains no
network call. -/
theorem risk_gate_spec_witness :
    (executeApi (α := Nat) (β := Nat) (γ := Nat) ⟨none, some "u", none, 20000, false⟩
        ⟨false, false, false⟩ ⟨none, none, some "s", none, none⟩ ⟨false, true⟩
        ReadResult.enoent "" FetchResult.aborted "domain" "delete" (some 1) none
        true true (some "Delete domain")).1 =
      .error ⟨"Delete domain is risky; run with --yes in non-interactive mode", 2, none⟩
    ∧ Effect.networkCall ∉
      (executeApi (α := Nat) (β := Nat) (γ := Nat) ⟨none, some "u", none, 20000, false⟩
        ⟨false, false, false⟩ ⟨none, none, some "s", none, none⟩ ⟨false, true⟩
        ReadResult.enoent "" FetchResult.aborted "domain" "delete" (some 1) none
        true true (some "Delete domain")).2 := by
  have h := (risk_gate_spec (α := Nat) (β := Nat) (γ := Nat) false false ⟨false, true⟩
      "Delete domain" "" ⟨none, some "u", none, 20000, false⟩ ⟨false, false, false⟩
      ⟨none, none, some "s", none, none⟩ ReadResult.enoent FetchResult.aborted
      "domain" "delete" (some 1) none (some "Delete domain")).2.2.2
      ⟨some 1, none, []⟩ ⟨"u", "s", "https://api.beget.com/api", none⟩
      rfl rfl rfl rfl rfl (Or.inl rfl)
  exact h

/- ### C1 — dry-run short-circuit (corrected) -/

/-- C1, counterexample. The claim says a mutating dry-run invocation
with no configured profile and no environment secrets still succeeds and
that no credential resolution occurs; in the code `resolveCredentials`
runs before the dry-run check, so this invocation fails with the
`AuthError` of exit code 3 and the trace records the resolution. -/
theorem executeApi_dry_run_cex :
    executeApi (α := Nat) (β := Nat) (γ := Nat) noFlags ⟨true, false, false⟩ emptyEnv
        ⟨false, false⟩ ReadResult.enoent "" FetchResult.aborted
        "domain" "delete" (some 1) none true true (some "Delete domain") =
      (Except.error missingCredsError, [Effect.readCfg, Effect.resolveCreds])
    ∧ missingCredsError.code = 3 :=
  ⟨rfl, rfl⟩

/-- C1, amended. For every mutating operation invoked with dry-run
requested, no risk gate runs and no network access occurs, and whenever
the store loads and credential resolution succeeds the pipeline emits the
structured description of the would-be call (section, method, payload,
query) and terminates successfully; credential resolution, however, is
performed first, so a mutating dry-run with no resolvable credentials
fails with the `AuthError` instead of succeeding. -/
theorem executeApi_dry_run_spec {α β γ : Type} (g : GlobalOpts) (cmdOpts : CmdOpts)
    (env : Env) (tty : Tty) (file : ReadResult) (raw : String) (fetched : FetchResult α)
    (sect method : String) (inputData : Option β) (query : Option γ)
    (risky : Bool) (riskTitle : Option String) (hdry : cmdOpts.dryRun = true) :
    (Effect.networkCall ∉
        (executeApi g cmdOpts env tty file raw fetched sect method inputData query
          true risky riskTitle).2
      ∧ ∀ s, Effect.prompt s ∉
        (executeApi g cmdOpts env tty file raw fetched sect method inputData query
          true risky riskTitle).2)
    ∧ (∀ cfg, readConfig file = .ok cfg →
        (resolveCredentials g env cfg = .error missingCredsError →
          executeApi g cmdOpts env tty file raw fetched sect method inputData query
            true risky riskTitle =
            (.error missingCredsError, [.readCfg, .resolveCreds]))
        ∧ (∀ creds, resolveCredentials g env cfg = .ok creds →
          executeApi g cmdOpts env tty file raw fetched sect method inputData query
            true risky riskTitle =
            (.ok (.dryRunDesc sect method inputData query), [.readCfg, .resolveCreds]))) := by
  constructor
  · cases hr : readConfig file with
    | error e => simp [executeApi, hr]
    | ok cfg =>
        cases hc : resolveCredentials g env cfg with
        | error e => simp [executeApi, hr, hc]
        | ok creds => simp [executeApi, hr, hc, hdry]
  · intro cfg hr
    constructor
    · intro herr
      simp [executeApi, hr, herr]
    · intro creds hc
      simp [executeApi, hr, hc, hdry]

/-- Witness for `executeApi_dry_run_spec`: a mutating risky dry run with
resolvable credentials emits the simulated payload and performs neither a
prompt nor a network call. -/
theorem executeApi_dry_run_spec_witness :
    executeApi (α := Nat) (β := Nat) (γ := Nat) ⟨none, some "u", none, 20000, false⟩
        ⟨true, false, false⟩ ⟨none, none, some "s", none, none⟩ ⟨false, false⟩
        ReadResult.enoent "" FetchResult.aborted "site" "add" (some 5) none
        true true none =
      (.ok (.dryRunDesc "site" "add" (some 5) none), [.readCfg, .resolveCreds]) := by
  have h := ((executeApi_dry_run_spec (α := Nat) (β := Nat) (γ := Nat)
      ⟨none, some "u", none, 20000, false⟩ ⟨true, false, false⟩
      ⟨none, none, some "s", none, none⟩ ⟨false, false⟩ ReadResult.enoent ""
      FetchResult.aborted "site" "add" (some 5) none true none rfl).2
      ⟨some 1, none, []⟩ rfl).2
      ⟨"u", "s", "https://api.beget.com/api", none⟩ rfl
  exact h

/- ### C7 — profile removal and the active-profile invariant -/

/-- C7. For every store satisfying the store invariant and every
profile removal that succeeds: if the removed profile was active and other
profiles remain, `activeProfile` is reassigned to one of the remaining
names; if it was the last profile, `activeProfile` becomes null; if it was
not active, `activeProfile` is unchanged — so the written store satisfies
the invariant again, and the write precedes the success report. -/
theorem authRemove_spec (cfg : Config) (name : String) (cfg' : Config) (ev : List IoEvent)
    (hinv : storeInv cfg) (hrun : authRemoveAction cfg name = .ok (cfg', ev)) :
    (cfg.activeProfile = some name → (∃ k ∈ profileKeys cfg.profiles, k ≠ name) →
      ∃ k, cfg'.activeProfile = some k ∧ k ∈ profileKeys cfg'.profiles)
    ∧ (cfg.activeProfile = some name → (∀ k ∈ profileKeys cfg.profiles, k = name) →
      cfg'.activeProfile = none)
    ∧ (cfg.activeProfile ≠ some name → cfg'.activeProfile = cfg.activeProfile)
    ∧ storeInv cfg'
    ∧ ev = [.write cfg', .print] := by
  unfold authRemoveAction at hrun
  by_cases hex : (lookupProfile cfg.profiles name).isNone
  · rw [if_pos hex] at hrun
    cases hrun
  · rw [if_neg hex] at hrun
    simp only [Except.ok.injEq, Prod.mk.injEq] at hrun
    obtain ⟨hcfg', hev⟩ := hrun
    subst hcfg'
    refine ⟨fun hact hother => ?_, fun hact hall => ?_, fun hne => ?_, ?_, hev.symm⟩
    · obtain ⟨k0, hk0, hk0ne⟩ := hother
      have hsome : ((profileKeys cfg.profiles).find? (fun k => decide (k ≠ name))).isSome := by
        rw [List.find?_isSome]
        exact ⟨k0, hk0, by simpa using hk0ne⟩
      obtain ⟨k', hk'⟩ := Option.isSome_iff_exists.mp hsome
      refine ⟨k', ?_, ?_⟩
      · show (if cfg.activeProfile = some name
            then (profileKeys cfg.profiles).find? (fun k => decide (k ≠ name))
            else cfg.activeProfile) = some k'
        rw [if_pos hact]
        exact hk'
      · have hmem := List.mem_of_find?_eq_some hk'
        have hne2 : k' ≠ name := by simpa using List.find?_some hk'
        exact mem_profileKeys_removeProfile.mpr ⟨hmem, hne2⟩
    · show (if cfg.activeProfile = some name
          then (profileKeys cfg.profiles).find? (fun k => decide (k ≠ name))
          else cfg.activeProfile) = none
      rw [if_pos hact, List.find?_eq_none]
      intro x hx
      simp [hall x hx]
    · show (if cfg.activeProfile = some name
          then (profileKeys cfg.profiles).find? (fun k => decide (k ≠ name))
          else cfg.activeProfile) = cfg.activeProfile
      rw [if_neg hne]
    · intro a ha
      have ha' : (if cfg.activeProfile = some name
          then (profileKeys cfg.profiles).find? (fun k => decide (k ≠ name))
          else cfg.activeProfile) = some a := ha
      by_cases hact : cfg.activeProfile = some name
      · rw [if_pos hact] at ha'
        have hmem := List.mem_of_find?_eq_some ha'
        have hne2 : a ≠ name := by simpa using List.find?_some ha'
        exact mem_profileKeys_removeProfile.mpr ⟨hmem, hne2⟩
      · rw [if_neg hact] at ha'
        have hne2 : a ≠ name := by
          intro h
          rw [h] at ha'
          exact hact ha'
        exact mem_profileKeys_removeProfile.mpr ⟨hinv a ha', hne2⟩

/-- Witness for `authRemove_spec`: removing the active profile `a` from a
two-profile store reassigns `activeProfile` to the remaining `b`. -/
theorem authRemove_spec_witness :
    ∃ k, (Config.mk (some 1) (some "b") [("b", Profile.mk (some "u2") (some "s2"))]).activeProfile
        = some k
      ∧ k ∈ profileKeys [("b", Profile.mk (some "u2") (some "s2"))] := by
  have h := (authRemove_spec
      ⟨some 1, some "a", [("a", ⟨some "u1", some "s1"⟩), ("b", ⟨some "u2", some "s2"⟩)]⟩
      "a" ⟨some 1, some "b", [("b", ⟨some "u2", some "s2"⟩)]⟩
      [.write ⟨some 1, some "b", [("b", ⟨some "u2", some "s2"⟩)]⟩, .print]
      (by intro a ha; injection ha with h2; subst h2; simp [profileKeys])
      rfl).1 rfl ⟨"b", by simp [profileKeys], by decide⟩
  exact h

/- ### C8 — secret acquisition -/

/-- C8. Secret acquisition checks its environment candidates in order
and returns the first non-empty value; when no candidate is present and
explicit non-interactive mode (`--no-input`) was requested, it fails with
a usage error naming the missing environment variables and never prompts;
when no candidate is present and stdin is not an interactive terminal, it
likewise fails with a usage error (exit code 2) instead of prompting. -/
theorem getSecret_spec (env : String → Option String) (keys pre post : List String)
    (k : String) (noInput : Bool) (tty : Tty) (typed : String) :
    (∀ v, (∀ k' ∈ pre, truthy (env k') = false) → env k = some v → v ≠ "" →
      getSecret env (pre ++ k :: post) noInput tty typed = (.ok v, false))
    ∧ ((∀ k' ∈ keys, truthy (env k') = false) → noInput = true →
      getSecret env keys noInput tty typed =
        (.error ⟨"Missing secret in env (" ++ String.intercalate ", " keys ++
            ") for --no-input mode", 2, none⟩, false))
    ∧ ((∀ k' ∈ keys, truthy (env k') = false) → tty.stdinTTY = false →
      ∃ e : CliError, getSecret env keys noInput tty typed = (.error e, false)
        ∧ e.code = 2) := by
  refine ⟨fun v hpre hk hne => ?_, fun hall hni => ?_, fun hall hstdin => ?_⟩
  · have hfirst := envFirstTruthy_first k post hpre (by simp [truthy, hk, hne])
    simp [getSecret, hfirst, hk]
  · have h0 := envFirstTruthy_eq_none hall
    simp [getSecret, h0, hni, EXIT.USAGE_ERROR]
  · have h0 := envFirstTruthy_eq_none hall
    cases hni : noInput with
    | true =>
        refine ⟨⟨"Missing secret in env (" ++ String.intercalate ", " keys ++
          ") for --no-input mode", 2, none⟩, ?_, rfl⟩
        simp [getSecret, h0, EXIT.USAGE_ERROR]
    | false =>
        refine ⟨⟨"Cannot prompt for secret in non-interactive mode.", 2, none⟩, ?_, rfl⟩
        simp [getSecret, h0, promptMasked, hstdin, EXIT.USAGE_ERROR]

/-- Witness for `getSecret_spec`: the first candidate's non-empty value is
returned without prompting; with no candidate set, `--no-input` fails
naming the variable. -/
theorem getSecret_spec_witness :
    getSecret (fun k => if k = "BEGET_FTP_PASSWORD" then some "pw" else none)
        ["BEGET_FTP_PASSWORD"] false ⟨true, true⟩ "typed" = (.ok "pw", false)
    ∧ getSecret (fun _ => none) ["BEGET_MYSQL_PASSWORD"] true ⟨true, true⟩ "typed" =
      (.error ⟨"Missing secret in env (" ++ String.intercalate ", " ["BEGET_MYSQL_PASSWORD"]
        ++ ") for --no-input mode", 2, none⟩, false) :=
  ⟨(getSecret_spec (fun k => if k = "BEGET_FTP_PASSWORD" then some "pw" else none)
      [] [] [] "BEGET_FTP_PASSWORD" false ⟨true, true⟩ "typed").1 "pw"
      (by simp) (by simp) (by decide),
   (getSecret_spec (fun _ => none) ["BEGET_MYSQL_PASSWORD"] [] [] "" true ⟨true, true⟩
      "typed").2.1 (by simp [truthy]) rfl⟩

/- ### C10 — `auth add` and the active profile (corrected) -/

/-- C10, counterexample. The claim says `auth add` changes
`activeProfile` only when it was null (or absent) before; the code tests
JS truthiness (`if (!next.activeProfile)`), so a store whose active
profile is the empty string — a set, non-null value — is also overwritten
with the new profile's name. -/
theorem authAddStore_active_cex :
    (authAddStore ⟨some 1, some "", [("", ⟨some "u", some "k"⟩)]⟩ "x" "u2" "k2").activeProfile
      = some "x"
    ∧ (some "" : Option String) ≠ none
    ∧ (some "" : Option String) ≠ some "x" :=
  ⟨rfl, by decide, by decide⟩

/-- C10, amended. Adding or updating a profile via `auth add` sets the
stored `activeProfile` to the new profile's name exactly when the previous
`activeProfile` was falsy — null, absent, or the empty string — and leaves
it unchanged otherwise; the added name maps to the new login/secret pair
and every other profile is unchanged. -/
theorem authAddStore_spec (cfg : Config) (name login apiKey : String) :
    (truthy cfg.activeProfile = false →
      (authAddStore cfg name login apiKey).activeProfile = some name)
    ∧ (truthy cfg.activeProfile = true →
      (authAddStore cfg name login apiKey).activeProfile = cfg.activeProfile)
    ∧ (∀ k, k ≠ name →
      lookupProfile (authAddStore cfg name login apiKey).profiles k =
        lookupProfile cfg.profiles k)
    ∧ lookupProfile (authAddStore cfg name login apiKey).profiles name =
        some ⟨some login, some apiKey⟩ := by
  refine ⟨fun h => ?_, fun h => ?_, fun k hk => ?_, ?_⟩
  · simp [authAddStore, h]
  · simp [authAddStore, h]
  · by_cases h : truthy cfg.activeProfile <;>
      simp [authAddStore, h, lookupProfile_setProfile_other cfg.profiles name k _ hk]
  · by_cases h : truthy cfg.activeProfile <;>
      simp [authAddStore, h, lookupProfile_setProfile_self]

/-- Witness for `authAddStore_spec`: adding a second profile to a store
with a set active profile leaves the active profile unchanged and keeps
the first profile intact. -/
theorem authAddStore_spec_witness :
    (authAddStore ⟨some 1, some "main", [("main", ⟨some "u", some "s"⟩)]⟩
        "x" "u2" "s2").activeProfile = some "main"
    ∧ lookupProfile (authAddStore ⟨some 1, some "main", [("main", ⟨some "u", some "s"⟩)]⟩
        "x" "u2" "s2").profiles "main" = some ⟨some "u", some "s"⟩ := by
  constructor
  · have h := (authAddStore_spec ⟨some 1, some "main", [("main", ⟨some "u", some "s"⟩)]⟩
        "x" "u2" "s2").2.1 (by decide)
    simpa using h
  · have h := (authAddStore_spec ⟨some 1, some "main", [("main", ⟨some "u", some "s"⟩)]⟩
        "x" "u2" "s2").2.2.1 "main" (by decide)
    simpa using h

end BegetCli
